import Mathlib

/-!
Shallow embedding of the self-introduction transcript scoring engine
(`app.py`).  Strings are modelled as `List Char`, Python numbers as `ℚ`
(the engine only ever divides small integers, so rationals model the
float arithmetic faithfully at every threshold the development uses),
and the two regular expressions of `grammar_score` are compiled by hand
into deterministic scanners (their quantifiers allow no backtracking,
see the comments at `matchLowerI` and `matchSentStart`).
The sentiment model is an external collaborator; the aggregator is
parameterised by an oracle returning the (compound, pos) polarity pair.
-/

namespace SelfIntro

/-! ### Character classes (ASCII models of Python `str` / `re` classes) -/

/-- Python `\s` (and the whitespace set of `str.strip` / `str.split`),
restricted to ASCII. -/
def isWs (c : Char) : Bool :=
  c == ' ' || c == '\t' || c == '\n' || c == '\r' || c == '\x0b' || c == '\x0c'

/-- Python regex class `[a-z]`. -/
def isLowerAlpha (c : Char) : Bool := c.isLower

/-- Python `\w`, restricted to ASCII: `[A-Za-z0-9_]`. -/
def isWordChar (c : Char) : Bool := c.isAlphanum || c == '_'

/-- The sentence-ending punctuation class `[.!?]`. -/
def isPunct3 (c : Char) : Bool := c == '.' || c == '!' || c == '?'

/-- Python `str.lower` (ASCII). -/
def lowerStr (l : List Char) : List Char := l.map Char.toLower

/-! ### The normalizer: strip, then collapse each whitespace run -/

/-- Python str.strip with no argument: drop outer whitespace. -/
def stripWs (l : List Char) : List Char :=
  ((l.dropWhile isWs).reverse.dropWhile isWs).reverse

/-- Auxiliary scan: the flag records whether the previous character was
whitespace (so that a run of whitespace emits exactly one space). -/
def collapseWsAux : Bool → List Char → List Char
  | _, [] => []
  | prevWs, c :: cs =>
    if isWs c then
      if prevWs then collapseWsAux true cs
      else ' ' :: collapseWsAux true cs
    else c :: collapseWsAux false cs

/-- Regex substitution of each maximal whitespace run by a single
space. -/
def collapseWs (l : List Char) : List Char := collapseWsAux false l

/-- Source function underscore-clean: strip, then collapse whitespace. -/
def clean (s : String) : List Char := collapseWs (stripWs s.toList)

/-! ### Tokenizers -/

/-- Auxiliary scan for whitespace splitting; `acc` is the reversed
current token. -/
def wsTokensAux : List Char → List Char → List (List Char)
  | acc, [] => if acc.isEmpty then [] else [acc.reverse]
  | acc, c :: cs =>
    if isWs c then
      if acc.isEmpty then wsTokensAux [] cs
      else acc.reverse :: wsTokensAux [] cs
    else wsTokensAux (c :: acc) cs

/-- Python str.split with no argument: maximal non-whitespace runs,
empty tokens dropped. -/
def wsTokens (l : List Char) : List (List Char) := wsTokensAux [] l

/-- Python str.split with a dot separator: split on each single dot,
keeping empty segments (the split of the empty string is one empty
segment). -/
def splitOnDot : List Char → List (List Char)
  | [] => [[]]
  | c :: cs =>
    if c == '.' then [] :: splitOnDot cs
    else
      match splitOnDot cs with
      | [] => [[c]]
      | f :: fs => (c :: f) :: fs

/-- Auxiliary scan for run-splitting; `acc` is the reversed current
fragment and `inSep` records that the previous character belonged to a
separator run (so further punctuation extends that separator instead of
emitting another fragment). -/
def splitPunctAux : List Char → Bool → List Char → List (List Char)
  | acc, _, [] => [acc.reverse]
  | acc, inSep, c :: cs =>
    if isPunct3 c then
      if inSep then splitPunctAux acc true cs
      else acc.reverse :: splitPunctAux [] true cs
    else splitPunctAux (c :: acc) false cs

/-- Regex split on the pattern of one or more sentence-punctuation
characters: each maximal run of them is one separator. -/
def splitPunctRuns (l : List Char) : List (List Char) := splitPunctAux [] false l

/-- Auxiliary scan collecting maximal word-character runs; `acc` is the
reversed current run. -/
def wordRunsAux : List Char → List Char → List (List Char)
  | acc, [] => if acc.isEmpty then [] else [acc.reverse]
  | acc, c :: cs =>
    if isWordChar c then wordRunsAux (c :: acc) cs
    else if acc.isEmpty then wordRunsAux [] cs
    else acc.reverse :: wordRunsAux [] cs

/-- Regex findall of word-character runs bounded by word boundaries:
these are exactly the maximal runs of word characters (each maximal run
is bounded by boundaries, and no proper sub-run of one starts or ends at
a boundary). -/
def wordRuns (l : List Char) : List (List Char) := wordRunsAux [] l

/-! ### Substring matching (Python `in`, `str.count`, `str.strip(chars)`) -/

/-- Test that the first list is a contiguous prefix of the second. -/
def isPre : List Char → List Char → Bool
  | [], _ => true
  | _ :: _, [] => false
  | p :: ps, c :: cs => p == c && isPre ps cs

/-- Python membership test of a pattern as contiguous substring. -/
def containsSub (s pat : List Char) : Bool :=
  s.tails.any (fun t => isPre pat t)

/-- Auxiliary scan for substring counting: while `skip` is positive the
scanner is still inside the previous match and only advances; at
`skip = 0` it attempts a match, and on success resumes after the match
(the remaining `pat.length - 1` matched characters are skipped). -/
def strCountAux (pat : List Char) : Nat → List Char → Nat
  | _, [] => 0
  | skip + 1, _ :: cs => strCountAux pat skip cs
  | 0, c :: cs =>
    if isPre pat (c :: cs) then 1 + strCountAux pat (pat.length - 1) cs
    else strCountAux pat 0 cs

/-- Python str.count for a nonempty pattern: the number of
non-overlapping occurrences, scanning left to right and resuming after
each match. -/
def strCount (pat l : List Char) : Nat := strCountAux pat 0 l

/-- Python str.strip with a character set: drop its characters from both ends. -/
def stripSet (set : List Char) (l : List Char) : List Char :=
  ((l.dropWhile (fun c => set.contains c)).reverse.dropWhile
      (fun c => set.contains c)).reverse

/-! ### Data tables -/

/-- Table WEIGHTS (a dict in the source; insertion order preserved). -/
def WEIGHTS : List (String × ℕ) :=
  [("salutation", 5), ("keywords", 20), ("flow", 5), ("rate", 10),
   ("grammar", 15), ("vocab", 15), ("filler", 10), ("sentiment", 10)]

/-- Lookup of a key in the WEIGHTS table. -/
def weight (k : String) : ℕ :=
  (((WEIGHTS.find? (fun kv => kv.1 == k)).map Prod.snd)).getD 0

/-- Table MUST_KEYWORDS (the escape x27 denotes the apostrophe of the
contracted i-am phrase). -/
def MUST_KEYWORDS : List (String × List String) :=
  [("name", ["name", "myself", "i am", "i\x27m", "call me"]),
   ("age", ["age", "years old", "year old"]),
   ("school", ["school", "studying", "student"]),
   ("class", ["class", "grade", "standard", "section"]),
   ("family", ["family", "father", "mother", "parents", "brother", "sister"]),
   ("hobbies", ["hobby", "hobbies", "enjoy", "like", "love", "interest",
                "favorite", "favourite", "play"])]

/-- Table GOOD_KEYWORDS. -/
def GOOD_KEYWORDS : List (String × List String) :=
  [("family_details", ["kind", "caring", "loving", "supportive"]),
   ("location", ["from", "live in", "belong"]),
   ("goals", ["ambition", "goal", "dream", "want to", "aspire", "hope"]),
   ("unique", ["fun fact", "special", "unique", "interesting"]),
   ("achievements", ["achievement", "award", "won", "proud"])]

/-- Table FILLERS. -/
def FILLERS : List String :=
  ["um", "uh", "like", "you know", "so", "actually", "basically", "right",
   "i mean", "well", "kinda", "sort of", "okay", "hmm", "ah"]

/-! ### Lexical matchers -/

/-- Source function contains_any. -/
def contains_any (text : List Char) (keywords : List String) : Bool :=
  keywords.any (fun k => containsSub (lowerStr text) k.toList)

/-- Source function count_category_matches: the category names whose
phrase list has a substring hit, in declaration order. -/
def count_category_matches (text : List Char)
    (categories : List (String × List String)) : List String :=
  (categories.filter
    (fun ck => ck.2.any (fun k => containsSub (lowerStr text) k.toList))).map Prod.fst

/-! ### Number formatting for feedback strings

The function fmtDec models Python fixed-point float formatting with a
given number of decimal digits, for the rational values produced by the
engine (rounding half up; the engine never evaluates a feedback string
at an exact half-ulp, so the tie-breaking rule is unobservable). -/

/-- Left-pad a string with zeros to width `w`. -/
def padZeros (w : ℕ) (s : String) : String :=
  if s.length < w then String.mk (List.replicate (w - s.length) '0') ++ s else s

/-- Fixed-point rendering of `q` with `d` decimal digits. -/
def fmtDec (d : ℕ) (q : ℚ) : String :=
  let m : ℕ := 10 ^ d
  let render : ℕ → String := fun n =>
    toString (n / m) ++ "." ++ padZeros d (toString (n % m))
  if q < 0 then "-" ++ render (round ((-q) * m)).toNat
  else render (round (q * m)).toNat

/-- Rendering with one decimal digit. -/
def fmt1 (q : ℚ) : String := fmtDec 1 q

/-- Rendering with two decimal digits. -/
def fmt2 (q : ℚ) : String := fmtDec 2 q

/-! ### Vocabulary richness (`ttr_score`) -/

/-- Regex findall of lowercase-letter runs bounded by word boundaries
over the lowered text: the maximal word-character
runs consisting solely of `[a-z]`.  (A proper sub-run of a `\w`-run can
never start or end at a `\b`, so the matches are exactly the maximal
`\w`-runs that are all lowercase letters.) -/
def ttr_words (text : List Char) : List (List Char) :=
  (wordRuns (lowerStr text)).filter (fun w => w.all isLowerAlpha)

/-- Source function ttr_score. -/
def ttr_score (text : List Char) : ℚ × String :=
  let words := ttr_words text
  if words = [] then (0, "No words")
  else
    let unique : ℕ := words.dedup.length
    let total : ℕ := words.length
    let ttr : ℚ := (unique : ℚ) / (total : ℚ)
    let tail : String :=
      " - TTR " ++ fmt2 ttr ++ " (" ++ toString unique ++ "/" ++ toString total ++ ")"
    if ttr ≥ 3/4 then (15, "Excellent" ++ tail)
    else if ttr ≥ 13/20 then (13, "Very Good" ++ tail)
    else if ttr ≥ 11/20 then (11, "Good" ++ tail)
    else if ttr ≥ 9/20 then (9, "Fair" ++ tail)
    else (7, "Basic" ++ tail)

/-! ### Grammar heuristics (`grammar_score`)

The two regexes are deterministic: in `\s+i\s+(?=[a-z])` each greedy
`\s+` must stop exactly at the first non-whitespace character (giving
characters back would place a whitespace character where `i` / `[a-z]`
is required), and likewise for `[.!?]\s+[a-z]`.  So a match attempt at a
position either fails or succeeds with the maximal-run decomposition
below, exactly as `re.findall` finds it. -/

/-- One match attempt of `\s+i\s+(?=[a-z])` at the head of the list;
returns the remainder after the consumed part (the lookahead consumes
nothing). -/
def matchLowerI : List Char → Option (List Char)
  | [] => none
  | c :: cs =>
    if isWs c then
      match cs.dropWhile isWs with
      | [] => none
      | [_] => none
      | x :: d :: ds =>
        if x == 'i' && isWs d then
          match ds.dropWhile isWs with
          | [] => none
          | e :: es => if isLowerAlpha e then some (e :: es) else none
        else none
    else none

/-- A successful match strictly shrinks the text. -/
theorem matchLowerI_length_lt (l r : List Char) (h : matchLowerI l = some r) :
    r.length < l.length := by
  cases l with
  | nil => simp [matchLowerI] at h
  | cons c cs =>
    rw [matchLowerI] at h
    split at h
    · split at h
      · cases h
      · cases h
      · rename_i x d ds hdw
        split at h
        · split at h
          · cases h
          · rename_i e es hdw2
            split at h
            · injection h with h
              subst h
              have hsub := (List.dropWhile_sublist (l := cs) isWs).length_le
              have hsub2 := (List.dropWhile_sublist (l := ds) isWs).length_le
              rw [hdw] at hsub
              rw [hdw2] at hsub2
              simp only [List.length_cons] at hsub hsub2 ⊢
              omega
            · cases h
        · cases h
    · cases h

/-- Auxiliary findall scan: while `skip` is positive the scanner is
still inside the previous match and only advances; at `skip = 0` it
attempts a match, and on success resumes at the match end (the
remaining consumed characters are skipped), else it advances one
character. -/
def countLowerIAux : Nat → List Char → ℕ
  | _, [] => 0
  | skip + 1, _ :: cs => countLowerIAux skip cs
  | 0, c :: cs =>
    match matchLowerI (c :: cs) with
    | some rest => 1 + countLowerIAux ((c :: cs).length - rest.length - 1) cs
    | none => countLowerIAux 0 cs

/-- The match count of the findall over the standalone-lowercase-i
pattern. -/
def countLowerI (l : List Char) : ℕ := countLowerIAux 0 l

/-- One match attempt of `[.!?]\s+[a-z]` at the head of the list;
returns the remainder after the consumed `[a-z]` character. -/
def matchSentStart : List Char → Option (List Char)
  | [] => none
  | c :: cs =>
    if isPunct3 c then
      match cs with
      | [] => none
      | d :: ds =>
        if isWs d then
          match ds.dropWhile isWs with
          | [] => none
          | e :: es => if isLowerAlpha e then some es else none
        else none
    else none

/-- A successful match strictly shrinks the text. -/
theorem matchSentStart_length_lt (l r : List Char) (h : matchSentStart l = some r) :
    r.length < l.length := by
  cases l with
  | nil => simp [matchSentStart] at h
  | cons c cs =>
    simp only [matchSentStart] at h
    split at h
    · split at h
      · cases h
      · rename_i d ds
        split at h
        · split at h
          · cases h
          · rename_i e es hdw2
            split at h
            · injection h with h
              subst h
              have hsub2 := (List.dropWhile_sublist (l := ds) isWs).length_le
              rw [hdw2] at hsub2
              simp only [List.length_cons] at hsub2 ⊢
              omega
            · cases h
        · cases h
    · cases h

/-- Auxiliary findall scan for the punctuation-then-lowercase pattern,
with the same skip discipline as `countLowerIAux`. -/
def countSentStartAux : Nat → List Char → ℕ
  | _, [] => 0
  | skip + 1, _ :: cs => countSentStartAux skip cs
  | 0, c :: cs =>
    match matchSentStart (c :: cs) with
    | some rest => 1 + countSentStartAux ((c :: cs).length - rest.length - 1) cs
    | none => countSentStartAux 0 cs

/-- The match count of the findall over the punctuation-then-lowercase
pattern. -/
def countSentStart (l : List Char) : ℕ := countSentStartAux 0 l

/-- Source function grammar_score: weighted regex hits, plus 0.5 per single-word
fragment, normalised per 100 words and banded. -/
def grammar_score (text : List Char) : ℚ × String :=
  let patterns : List (ℚ × ℚ) :=
    [((countLowerI text : ℚ), 1/2), ((countSentStart text : ℚ), 1/2)]
  let errors0 : ℚ := patterns.foldl (fun acc pw => acc + pw.1 * pw.2) 0
  let fragments := splitPunctRuns text
  let errors : ℚ :=
    fragments.foldl
      (fun acc f => if (wsTokens (stripWs f)).length = 1 then acc + 1/2 else acc) errors0
  let total_words : ℕ := max 1 (wsTokens text).length
  let errors_per_100 : ℚ := errors / (total_words : ℚ) * 100
  if errors_per_100 < 1 then (15, "Very few grammar issues")
  else if errors_per_100 < 2 then (13, "Minor grammar issues")
  else if errors_per_100 < 3 then (11, "Some grammar issues")
  else if errors_per_100 < 5 then (9, "Multiple grammar issues")
  else (7, "Needs grammar improvement")

/-! ### Filler words (`filler_score`) -/

/-- The space-padded occurrence count
the sum over the filler lexicon of the counts of each space-padded
filler phrase in the space-padded lowered text. -/
def filler_count (text : List Char) : ℕ :=
  let t := ' ' :: lowerStr text ++ [' ']
  (FILLERS.map (fun f => strCount (' ' :: f.toList ++ [' ']) t)).sum

/-- Source function filler_score. -/
def filler_score (text : List Char) : ℚ × String :=
  let total : ℕ := (wordRuns (lowerStr text)).length
  if total = 0 then (8, "No words")
  else
    let count := filler_count text
    let rate : ℚ := (count : ℚ) / (total : ℚ) * 100
    let tail : String := " - filler " ++ fmt1 rate ++ "% (" ++ toString count ++ ")"
    if rate < 1 then (10, "Excellent" ++ tail)
    else if rate < 2 then (9, "Very Good" ++ tail)
    else if rate < 3 then (8, "Good" ++ tail)
    else if rate < 5 then (6, "Fair" ++ tail)
    else (4, "Needs improvement" ++ tail)

/-! ### Salutation (`salutation_score`) -/

/-- Python join with a dot-space separator. -/
def joinDotSpace : List (List Char) → List Char
  | [] => []
  | [x] => x
  | x :: y :: rest => x ++ '.' :: ' ' :: joinDotSpace (y :: rest)

/-- Source function salutation_score. -/
def salutation_score (text : List Char) : ℚ × String :=
  let first := lowerStr (joinDotSpace ((splitOnDot text).take 2))
  let excellent : List String := ["i am excited", "feeling great", "pleased to introduce"]
  let good : List String :=
    ["good morning", "good afternoon", "good evening", "good day",
     "hello everyone", "greetings"]
  let normal : List String := ["hi", "hello", "hey"]
  if excellent.any (fun p => containsSub first p.toList) then
    (5, "Excellent salutation - enthusiastic")
  else if good.any (fun p => containsSub first p.toList) then (5, "Proper greeting")
  else if normal.any (fun p => containsSub first p.toList) then (4, "Basic greeting")
  else (2, "Started directly")

/-! ### Sentiment (`sentiment_score`)

The polarity model is an external collaborator: it is modelled as an
oracle returning the `(compound, pos)` pair of
`sentiment_analyzer.polarity_scores(text)`. -/

/-- Source function sentiment_score, relative to a polarity oracle. -/
def sentiment_score (oracle : List Char → ℚ × ℚ) (text : List Char) : ℚ × String :=
  let s := oracle text
  let c := s.1
  let pos := s.2
  if c ≥ 3/10 ∨ pos ≥ 2/10 then (10, "Positive & engaging (compound " ++ fmt2 c ++ ")")
  else if c ≥ 1/10 ∨ pos ≥ 1/10 then (9, "Friendly (compound " ++ fmt2 c ++ ")")
  else if c ≥ -(1/10) then (8, "Neutral-positive (compound " ++ fmt2 c ++ ")")
  else if c ≥ -(3/10) then (6, "Neutral (compound " ++ fmt2 c ++ ")")
  else (4, "Could be more positive (compound " ++ fmt2 c ++ ")")

/-! ### Speech rate (`speech_rate_score`) -/

/-- Source function speech_rate_score. -/
def speech_rate_score (text : List Char) (duration_sec : ℚ) : ℚ × String :=
  if duration_sec ≤ 0 then (8, "Duration not provided")
  else
    let words : ℕ := (wsTokens text).length
    let wpm : ℚ := (words : ℚ) / duration_sec * 60
    if 100 ≤ wpm ∧ wpm ≤ 150 then (10, "Excellent speech rate: " ++ fmt1 wpm ++ " WPM")
    else if (80 ≤ wpm ∧ wpm < 100) ∨ (150 < wpm ∧ wpm ≤ 170) then
      (8, "Good speech rate: " ++ fmt1 wpm ++ " WPM")
    else if (60 ≤ wpm ∧ wpm < 80) ∨ (170 < wpm ∧ wpm ≤ 190) then
      (6, "Acceptable speech rate: " ++ fmt1 wpm ++ " WPM")
    else (4, "Speech rate: " ++ fmt1 wpm ++ " WPM (consider adjusting pace)")

/-! ### Keyword coverage points (the expressions inlined in the source
aggregator, factored out so that the claims can name them) -/

/-- Must-have points of the aggregator:
min of matched-count times (keywords-weight over number of must
categories), and the keywords weight. -/
def kw_must_pts (n : ℕ) : ℚ :=
  min ((n : ℚ) * ((weight "keywords" : ℚ) / (MUST_KEYWORDS.length : ℚ)))
    ((weight "keywords" : ℚ))

/-- The Content and Keywords sub-score from `m` matched must-have and
`g` matched bonus categories. -/
def kw_total (m g : ℕ) : ℚ :=
  min (kw_must_pts m + min ((g : ℚ)) 5) ((weight "keywords" : ℚ))

/-- Python comma-join of category names, with the falsy-empty fallback
to the word none (category names are never empty, so the empty string
arises exactly from the empty list). -/
def joinCommaOrNone : List String → String
  | [] => "none"
  | x :: xs => xs.foldl (fun acc s => acc ++ ", " ++ s) x

/-- The sentence list of the flow scorer: dot-separated segments,
stripped, empty ones dropped. -/
def sentences_of (text : List Char) : List (List Char) :=
  ((splitOnDot text).map stripWs).filter (fun s => !s.isEmpty)

/-- Early self-identification: one of the first two sentences mentions
a self-identification phrase. -/
def name_early_of (sentences : List (List Char)) : Bool :=
  (sentences.take 2).any (fun s =>
    containsSub (lowerStr s) ("name".toList) ||
      containsSub (lowerStr s) ("myself".toList) ||
      containsSub (lowerStr s) ("i am".toList))

/-- Closing check: the last sentence (when one exists) contains a
closing phrase. -/
def has_closing_of (sentences : List (List Char)) : Bool :=
  match sentences.getLast? with
  | none => false
  | some lastS =>
    (["thank", "thanks", "listening", "attention"] : List String).any
      (fun w => containsSub (lowerStr lastS) w.toList)

/-- Middle-content check: at least four sentences. -/
def has_middle_of (sentences : List (List Char)) : Bool :=
  decide (sentences.length ≥ 4)

/-- The Flow and Structure points:
2 for an early self-identification, 2 for at least four sentences,
1 for a closing phrase in the last sentence. -/
def flow_points (name_early has_middle has_closing : Bool) : ℚ :=
  (if name_early then 2 else 0) + (if has_middle then 2 else 0) +
    (if has_closing then 1 else 0)

/-! ### The scoring report -/

/-- One entry of the criteria list built by the aggregator. -/
structure Criterion where
  criterion : String
  score : ℚ
  max_score : ℕ
  weight : ℕ
  feedback : String
deriving DecidableEq, Repr

/-- The result dict returned by the analyzer. -/
structure Report where
  overall_score : ℚ
  word_count : ℕ
  sentence_count : ℕ
  criteria_scores : List Criterion
deriving DecidableEq, Repr

/-- The main analyzer `analyze_transcript(transcript, duration_sec)`,
parameterised by the polarity oracle of the external sentiment model. -/
def analyze_transcript (oracle : List Char → ℚ × ℚ) (transcript : String)
    (duration_sec : ℚ) : Report :=
  let text := clean transcript
  let sal := salutation_score text
  let found_must := count_category_matches text MUST_KEYWORDS
  let found_good := count_category_matches text GOOD_KEYWORDS
  let kw_score_total : ℚ := kw_total found_must.length found_good.length
  let kw_fb := "Found must-have: " ++ joinCommaOrNone found_must ++
    "; good extras: " ++ joinCommaOrNone found_good
  let sentences := sentences_of text
  let name_early := name_early_of sentences
  let has_closing := has_closing_of sentences
  let has_middle : Bool := has_middle_of sentences
  let flow_pts : ℚ := flow_points name_early has_middle has_closing
  let flow_fb_raw : String :=
    (if name_early then ("good opening, ") else ("")) ++
    (if has_middle then ("middle content, ") else ("")) ++
    (if has_closing then ("closing") else (""))
  let flow_fb_stripped := String.mk (stripSet [' ', ','] flow_fb_raw.toList)
  let flow_fb := if flow_fb_stripped = "" then ("Basic flow") else flow_fb_stripped
  let rate := speech_rate_score text duration_sec
  let gram := grammar_score text
  let vocab := ttr_score text
  let fill := filler_score text
  let sent := sentiment_score oracle text
  let overall_raw : ℚ := 0 + (sal.1 / 5) * (weight "salutation" : ℚ) +
    kw_score_total + flow_pts + rate.1 + gram.1 + vocab.1 + fill.1 + sent.1
  { overall_score := min (max overall_raw 0) 100
    word_count := (wsTokens text).length
    sentence_count := ((splitOnDot text).filter (fun s => !(stripWs s).isEmpty)).length
    criteria_scores := [
      ⟨"Salutation", sal.1, weight "salutation", weight "salutation", sal.2⟩,
      ⟨"Content & Keywords", kw_score_total, weight "keywords", weight "keywords", kw_fb⟩,
      ⟨"Flow & Structure", flow_pts, weight "flow", weight "flow", flow_fb⟩,
      ⟨"Speech Rate", rate.1, weight "rate", weight "rate", rate.2⟩,
      ⟨"Grammar & Language", gram.1, weight "grammar", weight "grammar", gram.2⟩,
      ⟨"Vocabulary Richness", vocab.1, weight "vocab", weight "vocab", vocab.2⟩,
      ⟨"Clarity (Filler Words)", fill.1, weight "filler", weight "filler", fill.2⟩,
      ⟨"Engagement & Positivity", sent.1, weight "sentiment", weight "sentiment", sent.2⟩] }

/-! ### Spec-side restatements (used only to check the source against
the spec wording) -/

/-- Spec wording of the grammar error tally: 0.5 per occurrence of a
lowercase standalone i followed by a lowercase letter, plus 0.5 per
occurrence of sentence-ending punctuation immediately followed by a
lowercase letter, plus 0.5 per single-word fragment. -/
def grammar_tally_spec (text : List Char) : ℚ :=
  (1/2) * (countLowerI text : ℚ) + (1/2) * (countSentStart text : ℚ) +
    (1/2) * (((splitPunctRuns text).filter
      (fun f => (wsTokens (stripWs f)).length == 1)).length : ℚ)

/-- Spec wording of the grammar banding of errors-per-100-words. -/
def grammar_band_spec (e : ℚ) : ℚ × String :=
  if e < 1 then (15, "Very few grammar issues")
  else if e < 2 then (13, "Minor grammar issues")
  else if e < 3 then (11, "Some grammar issues")
  else if e < 5 then (9, "Multiple grammar issues")
  else (7, "Needs grammar improvement")

/-- The filler-rate test transcript of the spec (three um fillers among
ten words). -/
def um_transcript : List Char :=
  "um um um testing testing testing testing testing testing testing".toList

/-! ### Helper lemmas: weight-table lookups -/

theorem weight_salutation : weight "salutation" = 5 := by decide

theorem weight_keywords : weight "keywords" = 20 := by decide

theorem weight_flow : weight "flow" = 5 := by decide

theorem weight_rate : weight "rate" = 10 := by decide

theorem weight_grammar : weight "grammar" = 15 := by decide

theorem weight_vocab : weight "vocab" = 15 := by decide

theorem weight_filler : weight "filler" = 10 := by decide

theorem weight_sentiment : weight "sentiment" = 10 := by decide

/-! ### Helper lemmas: per-scorer score bounds -/

theorem sal_bounds (t : List Char) :
    0 ≤ (salutation_score t).1 ∧ (salutation_score t).1 ≤ 5 := by
  unfold salutation_score
  dsimp only
  split_ifs <;> norm_num

theorem kw_total_bounds (m g : ℕ) : 0 ≤ kw_total m g ∧ kw_total m g ≤ 20 := by
  unfold kw_total kw_must_pts
  rw [weight_keywords]
  push_cast
  constructor
  · apply le_min _ (by norm_num)
    apply add_nonneg
    · exact le_min (by positivity) (by norm_num)
    · exact le_min (by positivity) (by norm_num)
  · exact min_le_right _ _

theorem flow_points_bounds (a b c : Bool) :
    0 ≤ flow_points a b c ∧ flow_points a b c ≤ 5 := by
  unfold flow_points
  cases a <;> cases b <;> cases c <;> norm_num

theorem rate_bounds (t : List Char) (d : ℚ) :
    0 ≤ (speech_rate_score t d).1 ∧ (speech_rate_score t d).1 ≤ 10 := by
  unfold speech_rate_score
  dsimp only
  split_ifs <;> norm_num

theorem gram_bounds (t : List Char) :
    0 ≤ (grammar_score t).1 ∧ (grammar_score t).1 ≤ 15 := by
  unfold grammar_score
  dsimp only
  split_ifs <;> norm_num

theorem ttr_bounds (t : List Char) :
    0 ≤ (ttr_score t).1 ∧ (ttr_score t).1 ≤ 15 := by
  unfold ttr_score
  dsimp only
  split_ifs <;> norm_num

theorem fill_bounds (t : List Char) :
    0 ≤ (filler_score t).1 ∧ (filler_score t).1 ≤ 10 := by
  unfold filler_score
  dsimp only
  split_ifs <;> norm_num

theorem sent_bounds (oracle : List Char → ℚ × ℚ) (t : List Char) :
    0 ≤ (sentiment_score oracle t).1 ∧ (sentiment_score oracle t).1 ≤ 10 := by
  unfold sentiment_score
  dsimp only
  split_ifs <;> norm_num

/-! ### Claim theorems -/

/-- C3: the speech-rate scorer returns exactly (8, Duration not
provided) whenever the duration is non-positive; otherwise, with
wpm equal to word count over duration times 60, it scores 10 at
wpm exactly 150, 8 at 151, 8 at 99 and 6 at 60, per the inclusive
band table. -/
theorem speech_rate_bands :
    (∀ (t : List Char) (d : ℚ), d ≤ 0 →
      speech_rate_score t d = (8, "Duration not provided")) ∧
    (∀ (t : List Char) (d : ℚ), 0 < d →
      ((wsTokens t).length : ℚ) / d * 60 = 150 → (speech_rate_score t d).1 = 10) ∧
    (∀ (t : List Char) (d : ℚ), 0 < d →
      ((wsTokens t).length : ℚ) / d * 60 = 151 → (speech_rate_score t d).1 = 8) ∧
    (∀ (t : List Char) (d : ℚ), 0 < d →
      ((wsTokens t).length : ℚ) / d * 60 = 99 → (speech_rate_score t d).1 = 8) ∧
    (∀ (t : List Char) (d : ℚ), 0 < d →
      ((wsTokens t).length : ℚ) / d * 60 = 60 → (speech_rate_score t d).1 = 6) := by
  refine ⟨?_, ?_, ?_, ?_, ?_⟩
  · intro t d hd
    unfold speech_rate_score
    rw [if_pos hd]
  all_goals
    intro t d hd hwpm
    unfold speech_rate_score
    rw [if_neg (not_le.mpr hd)]
    dsimp only
    rw [hwpm]
    norm_num

/-- C3 witness: the band facts at concrete inputs. -/
theorem speech_rate_bands_witness :
    speech_rate_score [] 0 = (8, "Duration not provided") ∧
    (speech_rate_score ("a b c d e".toList) 2).1 = 10 ∧
    (speech_rate_score ("a".toList) (60/151)).1 = 8 ∧
    (speech_rate_score ("a".toList) (60/99)).1 = 8 ∧
    (speech_rate_score ("a".toList) 1).1 = 6 :=
  ⟨speech_rate_bands.1 [] 0 le_rfl,
   speech_rate_bands.2.1 _ 2 (by norm_num)
     (by rw [show (wsTokens ("a b c d e".toList)).length = 5 from by decide]; norm_num),
   speech_rate_bands.2.2.1 _ (60/151) (by norm_num)
     (by rw [show (wsTokens ("a".toList)).length = 1 from by decide]; norm_num),
   speech_rate_bands.2.2.2.1 _ (60/99) (by norm_num)
     (by rw [show (wsTokens ("a".toList)).length = 1 from by decide]; norm_num),
   speech_rate_bands.2.2.2.2 _ 1 (by norm_num)
     (by rw [show (wsTokens ("a".toList)).length = 1 from by decide]; norm_num)⟩

/-! ### Helper lemmas: evaluation at the empty transcript -/

theorem kw_total_zero : kw_total 0 0 = 0 := by
  unfold kw_total kw_must_pts
  rw [weight_keywords]
  push_cast
  rw [min_def, min_def, min_def]
  norm_num

theorem flow_points_false : flow_points false false false = 0 := by
  simp [flow_points]

theorem grammar_empty : grammar_score [] = (15, "Very few grammar issues") := by
  unfold grammar_score
  rw [show countLowerI [] = 0 from rfl, show countSentStart [] = 0 from rfl,
    show splitPunctRuns [] = [[]] from rfl,
    show wsTokens ([] : List Char) = [] from rfl]
  simp only [List.foldl]
  rw [if_neg (by decide : ¬ (wsTokens (stripWs ([] : List Char))).length = 1)]
  norm_num

/-- C8: the engine is total on well-typed input: the analyzer always
returns a report with its eight criteria entries, and each scorer
produces its documented neutral output on its empty-input edge case. -/
theorem engine_total :
    (∀ (oracle : List Char → ℚ × ℚ) (t : String) (d : ℚ),
      (analyze_transcript oracle t d).criteria_scores.length = 8) ∧
    ttr_score [] = (0, "No words") ∧
    filler_score [] = (8, "No words") ∧
    salutation_score [] = (2, "Started directly") ∧
    grammar_score [] = (15, "Very few grammar issues") ∧
    (∀ (t : List Char) (d : ℚ), d ≤ 0 →
      speech_rate_score t d = (8, "Duration not provided")) := by
  refine ⟨fun oracle t d => rfl, by decide, by decide, by decide, grammar_empty, ?_⟩
  intro t d hd
  unfold speech_rate_score
  rw [if_pos hd]

/-- C8 witness: the non-positive-duration edge case at a concrete
input. -/
theorem engine_total_witness :
    speech_rate_score [] (-1) = (8, "Duration not provided") :=
  engine_total.2.2.2.2.2 [] (-1) (by norm_num)

/-- C4: for the empty transcript and any duration, the generated
criteria are: salutation 2, keyword coverage 0, flow 0, vocabulary 0
with feedback No words, filler 8 with feedback No words, grammar 15
(top band, tally 0), and only the Speech Rate entry depends on the
duration (the sentiment entry depends only on the oracle, not on the
duration). -/
theorem empty_transcript_defaults (oracle : List Char → ℚ × ℚ) (d : ℚ) :
    (analyze_transcript oracle "" d).criteria_scores = [
      ⟨"Salutation", 2, 5, 5, "Started directly"⟩,
      ⟨"Content & Keywords", 0, 20, 20, "Found must-have: none; good extras: none"⟩,
      ⟨"Flow & Structure", 0, 5, 5, "Basic flow"⟩,
      ⟨"Speech Rate", (speech_rate_score [] d).1, 10, 10, (speech_rate_score [] d).2⟩,
      ⟨"Grammar & Language", 15, 15, 15, "Very few grammar issues"⟩,
      ⟨"Vocabulary Richness", 0, 15, 15, "No words"⟩,
      ⟨"Clarity (Filler Words)", 8, 10, 10, "No words"⟩,
      ⟨"Engagement & Positivity", (sentiment_score oracle []).1, 10, 10,
        (sentiment_score oracle []).2⟩] := by
  have hclean : clean "" = [] := rfl
  simp only [analyze_transcript, hclean]
  rw [show salutation_score [] = (2, "Started directly") from by decide]
  rw [show count_category_matches [] MUST_KEYWORDS = [] from by decide]
  rw [show count_category_matches [] GOOD_KEYWORDS = [] from by decide]
  rw [show name_early_of (sentences_of []) = false from by decide,
    show has_middle_of (sentences_of []) = false from by decide,
    show has_closing_of (sentences_of []) = false from by decide]
  simp only [List.length_nil, kw_total_zero]
  rw [flow_points_false]
  rw [grammar_empty]
  rw [show ttr_score [] = (0, "No words") from by decide]
  rw [show filler_score [] = (8, "No words") from by decide]
  simp only [weight_salutation, weight_keywords, weight_flow, weight_rate,
    weight_grammar, weight_vocab, weight_filler, weight_sentiment]
  rfl

/-- C10 (noninterference of duration): for the same transcript and any
two durations the reports agree on word count, sentence count, on all
criterion labels and maxima, and on every criterion entry other than
the Speech Rate entry (index 3). -/
theorem duration_noninterference (oracle : List Char → ℚ × ℚ) (t : String)
    (d1 d2 : ℚ) :
    (analyze_transcript oracle t d1).word_count =
      (analyze_transcript oracle t d2).word_count ∧
    (analyze_transcript oracle t d1).sentence_count =
      (analyze_transcript oracle t d2).sentence_count ∧
    (analyze_transcript oracle t d1).criteria_scores.map Criterion.criterion =
      (analyze_transcript oracle t d2).criteria_scores.map Criterion.criterion ∧
    (analyze_transcript oracle t d1).criteria_scores.map Criterion.max_score =
      (analyze_transcript oracle t d2).criteria_scores.map Criterion.max_score ∧
    (analyze_transcript oracle t d1).criteria_scores.eraseIdx 3 =
      (analyze_transcript oracle t d2).criteria_scores.eraseIdx 3 :=
  ⟨rfl, rfl, rfl, rfl, rfl⟩

/-- C2: the composite score equals the sum of the raw per-criterion
sub-scores clamped into [0, 100] (the salutation term (s/5) times
weight equals s itself; keyword coverage and flow are direct point
totals), and the criteria appear in the fixed declaration order. -/
theorem overall_clamped_sum_order (oracle : List Char → ℚ × ℚ) (t : String)
    (d : ℚ) :
    (analyze_transcript oracle t d).overall_score =
      min (max (((analyze_transcript oracle t d).criteria_scores.map
        Criterion.score).sum) 0) 100 ∧
    (analyze_transcript oracle t d).criteria_scores.map Criterion.criterion =
      ["Salutation", "Content & Keywords", "Flow & Structure", "Speech Rate",
       "Grammar & Language", "Vocabulary Richness", "Clarity (Filler Words)",
       "Engagement & Positivity"] := by
  constructor
  · simp only [analyze_transcript, List.map_cons, List.map_nil, List.sum_cons,
      List.sum_nil, weight_salutation]
    congr 2
    push_cast
    ring
  · rfl

/-- C1: for every transcript and duration the composite score lies in
[0, 100], and every emitted criterion entry has a score between 0 and
its max score. -/
theorem analyze_scores_bounded (oracle : List Char → ℚ × ℚ) (t : String)
    (d : ℚ) :
    (0 ≤ (analyze_transcript oracle t d).overall_score ∧
      (analyze_transcript oracle t d).overall_score ≤ 100) ∧
    ∀ c ∈ (analyze_transcript oracle t d).criteria_scores,
      0 ≤ c.score ∧ c.score ≤ (c.max_score : ℚ) := by
  refine ⟨⟨le_min (le_max_right _ _) (by norm_num), min_le_right _ _⟩, ?_⟩
  intro c hc
  simp only [analyze_transcript, List.mem_cons, List.not_mem_nil, or_false] at hc
  rcases hc with rfl | rfl | rfl | rfl | rfl | rfl | rfl | rfl <;>
    simp only [weight_salutation, weight_keywords, weight_flow, weight_rate,
      weight_grammar, weight_vocab, weight_filler, weight_sentiment] <;>
    push_cast
  · exact sal_bounds _
  · exact kw_total_bounds _ _
  · exact flow_points_bounds _ _ _
  · exact rate_bounds _ _
  · exact ⟨(gram_bounds _).1, (gram_bounds _).2⟩
  · exact ttr_bounds _
  · exact fill_bounds _
  · exact sent_bounds _ _

/-- C1 witness: the bound instantiated for the Salutation entry of the
report on the empty transcript with a trivial oracle. -/
theorem analyze_scores_bounded_witness :
    ((⟨"Salutation", 2, 5, 5, "Started directly"⟩ : Criterion) ∈
      (analyze_transcript (fun _ => (0, 0)) "" 0).criteria_scores) ∧
    (0 ≤ (⟨"Salutation", 2, 5, 5, "Started directly"⟩ : Criterion).score ∧
      (⟨"Salutation", 2, 5, 5, "Started directly"⟩ : Criterion).score ≤
        ((⟨"Salutation", 2, 5, 5, "Started directly"⟩ : Criterion).max_score : ℚ)) :=
  have hm : (⟨"Salutation", 2, 5, 5, "Started directly"⟩ : Criterion) ∈
      (analyze_transcript (fun _ => (0, 0)) "" 0).criteria_scores :=
    List.mem_cons_self _ _
  ⟨hm, (analyze_scores_bounded (fun _ => (0, 0)) "" 0).2 _ hm⟩

/-- C9 (implicit): the per-criterion maxima in the weight table sum to
90, not 100, so the composite score is at most 90: the upper clamp at
100 never binds and a composite of 100 is unattainable. -/
theorem overall_le_ninety :
    ((WEIGHTS.map Prod.snd).sum = 90) ∧
    ∀ (oracle : List Char → ℚ × ℚ) (t : String) (d : ℚ),
      (analyze_transcript oracle t d).overall_score ≤ 90 ∧
      (analyze_transcript oracle t d).overall_score ≠ 100 := by
  refine ⟨by decide, fun oracle t d => ?_⟩
  have hb : (analyze_transcript oracle t d).overall_score ≤ 90 := by
    simp only [analyze_transcript, weight_salutation]
    refine le_trans (min_le_left _ _) (max_le ?_ (by norm_num))
    have h1 := (sal_bounds (clean t)).2
    have h2 := (kw_total_bounds (count_category_matches (clean t) MUST_KEYWORDS).length
      (count_category_matches (clean t) GOOD_KEYWORDS).length).2
    have h3 := (flow_points_bounds (name_early_of (sentences_of (clean t)))
      (has_middle_of (sentences_of (clean t)))
      (has_closing_of (sentences_of (clean t)))).2
    have h4 := (rate_bounds (clean t) d).2
    have h5 := (gram_bounds (clean t)).2
    have h6 := (ttr_bounds (clean t)).2
    have h7 := (fill_bounds (clean t)).2
    have h8 := (sent_bounds oracle (clean t)).2
    push_cast
    have hs : (salutation_score (clean t)).1 / 5 * 5 = (salutation_score (clean t)).1 := by
      ring
    rw [hs]
    linarith
  exact ⟨hb, by intro h; rw [h] at hb; norm_num at hb⟩

/-- C7: the keyword coverage sub-score is monotone in must-have
coverage: with equal matched bonus counts, a transcript matching one
more must-have category never scores lower on Content and Keywords. -/
theorem keyword_coverage_monotone (t1 t2 : List Char)
    (hg : (count_category_matches t1 GOOD_KEYWORDS).length =
      (count_category_matches t2 GOOD_KEYWORDS).length)
    (hm : (count_category_matches t2 MUST_KEYWORDS).length =
      (count_category_matches t1 MUST_KEYWORDS).length + 1) :
    kw_total (count_category_matches t1 MUST_KEYWORDS).length
        (count_category_matches t1 GOOD_KEYWORDS).length ≤
      kw_total (count_category_matches t2 MUST_KEYWORDS).length
        (count_category_matches t2 GOOD_KEYWORDS).length := by
  rw [hm, ← hg]
  unfold kw_total kw_must_pts
  rw [weight_keywords]
  push_cast
  gcongr
  linarith

/-- C7 witness: the empty transcript matches no category; the
transcript consisting of the word name matches exactly the must-have
category name and no bonus category. -/
theorem keyword_coverage_monotone_witness :
    ((count_category_matches [] GOOD_KEYWORDS).length =
      (count_category_matches ("name".toList) GOOD_KEYWORDS).length) ∧
    ((count_category_matches ("name".toList) MUST_KEYWORDS).length =
      (count_category_matches [] MUST_KEYWORDS).length + 1) ∧
    kw_total (count_category_matches [] MUST_KEYWORDS).length
        (count_category_matches [] GOOD_KEYWORDS).length ≤
      kw_total (count_category_matches ("name".toList) MUST_KEYWORDS).length
        (count_category_matches ("name".toList) GOOD_KEYWORDS).length :=
  ⟨by decide, by decide,
   keyword_coverage_monotone [] ("name".toList) (by decide) (by decide)⟩

/-- Helper: the fragment loop of the grammar scorer adds 0.5 per
single-word fragment. -/
theorem foldl_half_fragments (l : List (List Char)) (a : ℚ) :
    l.foldl (fun acc f => if (wsTokens (stripWs f)).length = 1 then acc + 1/2 else acc) a =
      a + ((l.filter (fun f => (wsTokens (stripWs f)).length == 1)).length : ℚ) * (1/2) := by
  induction l generalizing a with
  | nil => simp
  | cons f fs ih =>
    simp only [List.foldl_cons, List.filter_cons]
    by_cases h : (wsTokens (stripWs f)).length = 1
    · rw [if_pos h, ih]
      simp only [h, beq_self_eq_true, if_true, List.length_cons]
      push_cast
      ring
    · rw [if_neg h, ih]
      simp only [beq_iff_eq, h, if_false, decide_eq_true_eq]

/-- C5: the grammar scorer equals the spec-side tally (0.5 per
standalone-lowercase-i hit, 0.5 per punctuation-then-lowercase hit,
0.5 per single-word fragment), normalised as tally over
max(1, word count) times 100 and banded at 1, 2, 3, 5 into
15, 13, 11, 9, else 7. -/
theorem grammar_score_eq_spec (text : List Char) :
    grammar_score text =
      grammar_band_spec (grammar_tally_spec text /
        ((max 1 (wsTokens text).length : ℕ) : ℚ) * 100) := by
  unfold grammar_score grammar_band_spec grammar_tally_spec
  simp only [List.foldl_cons, List.foldl_nil, foldl_half_fragments]
  ring_nf

/-- Helper: the one-decimal rendering of 20 is 20.0. -/
theorem fmt1_twenty : fmt1 20 = "20.0" := by
  unfold fmt1 fmtDec
  rw [if_neg (by norm_num : ¬ (20:ℚ) < 0)]
  rw [show (20 * ((10 ^ 1 : ℕ) : ℚ)) = ((200:ℤ):ℚ) by push_cast; norm_num,
    round_intCast]
  decide

/-- C6 counterexample: on the um transcript the space-padded Python
count finds only 2 non-overlapping filler occurrences, not 3 (the three
consecutive um tokens share their padding spaces). -/
theorem filler_um_count_ne_three :
    filler_count um_transcript = 2 ∧ ¬ filler_count um_transcript = 3 := by decide

/-- C6 amended: the filler scorer counts 2 filler occurrences out of 10
words on the um transcript (str.count is non-overlapping, so the three
consecutive um tokens yield two space-padded matches), a 20 percent
rate, and returns score 4 with feedback beginning Needs improvement. -/
theorem filler_um_amended :
    (wordRuns (lowerStr um_transcript)).length = 10 ∧
    filler_score um_transcript = (4, "Needs improvement - filler 20.0% (2)") := by
  refine ⟨by decide, ?_⟩
  unfold filler_score
  rw [show (wordRuns (lowerStr um_transcript)).length = 10 from by decide,
    show filler_count um_transcript = 2 from by decide]
  rw [if_neg (by norm_num : ¬ (10:ℕ) = 0)]
  dsimp only
  have hrate : ((2:ℕ):ℚ) / ((10:ℕ):ℚ) * 100 = 20 := by push_cast; norm_num
  rw [hrate]
  rw [if_neg (by norm_num : ¬ (20:ℚ) < 1), if_neg (by norm_num : ¬ (20:ℚ) < 2),
    if_neg (by norm_num : ¬ (20:ℚ) < 3), if_neg (by norm_num : ¬ (20:ℚ) < 5)]
  rw [fmt1_twenty]
  decide
